import Mathlib

/-
  Verification development for the win100 live-scanner repository.

  The definitions below are a shallow embedding of the settlement,
  staking, dedup and risk logic of the repository. JavaScript numbers
  are modelled as exact rationals; the JavaScript values null,
  undefined and NaN that can reach the modelled functions are made
  explicit either through Option or through the JVal type. Functions
  keep the names of their source counterparts where Lean allows it.
-/

namespace Win100

/-- Model of a JavaScript value flowing into Number(...) coercions: a
finite number, null, undefined, or NaN. A non-numeric string coerces to
NaN and is covered by the nan constructor. -/
inductive JVal where
  | undef : JVal
  | jnull : JVal
  | nan : JVal
  | num (q : ℚ) : JVal
deriving DecidableEq, Repr

/-- Number(v) followed by the Number.isFinite test: none models a
non-finite result (NaN), some q a finite number. Number(null) is 0,
Number(undefined) is NaN. -/
def JVal.toNumber : JVal → Option ℚ
  | .undef => none
  | .jnull => some 0
  | .nan => none
  | .num q => some q

/-- The JavaScript nullish coalescing operator a ?? b. -/
def jsCoalesce (v d : JVal) : JVal :=
  match v with
  | .undef => d
  | .jnull => d
  | v => v

/-- Source safeNumber(v, fallback): Number(v) when finite, else the
fallback. The argument models the already-coerced Option result. -/
def safeNumber (v : Option ℚ) (fb : ℚ) : ℚ := v.getD fb

/-- Source clamp(v, a, b) = Math.max(a, Math.min(b, v)) from server.js. -/
def clamp (v a b : ℚ) : ℚ := max a (min b v)

/-- Source clamp01(x) from the scanner: below 0 becomes 0, above 1
becomes 1, else x. -/
def clamp01 (x : ℚ) : ℚ := if x < 0 then 0 else if 1 < x then 1 else x

/-- Model of JavaScript Number.prototype.toFixed(4) read back as a
number: round to the nearest multiple of 1/10000, ties toward the
larger value, as ECMA-262 specifies for toFixed. -/
def tf4 (x : ℚ) : ℚ := (⌊x * 10000 + 1/2⌋ : ℚ) / 10000

/-- Model of toFixed(2) read back as a number. -/
def tf2 (x : ℚ) : ℚ := (⌊x * 100 + 1/2⌋ : ℚ) / 100

/-- Model of String.prototype.toLowerCase restricted to the ASCII range,
which covers every string the scanner compares. Defined on the character
list so that it evaluates by kernel reduction. -/
def jsToLower (s : String) : String := ⟨s.data.map Char.toLower⟩

/-- Model of String.prototype.toUpperCase restricted to the ASCII range. -/
def jsToUpper (s : String) : String := ⟨s.data.map Char.toUpper⟩

/-- Model of String.prototype.includes: the argument occurs as a
contiguous substring. -/
def jsIncludes (s sub : String) : Bool :=
  s.data.tails.any (fun t => sub.data.isPrefixOf t)

/-- The JavaScript a || b fallback on an optional string field, where
the empty string is falsy. -/
def jsOrStr (a : Option String) (b : String) : String :=
  match a with
  | some s => if s = "" then b else s
  | none => b

/-- The JavaScript a || b fallback where both sides are optional
strings and the empty string is falsy. -/
def jsOrStrOpt (a b : Option String) : Option String :=
  match a with
  | some s => if s = "" then b else some s
  | none => b

/-- Bet outcomes produced by the settlement helpers. -/
inductive Outcome where
  | WIN : Outcome
  | LOSE : Outcome
  | PUSH : Outcome
  | HALF_WIN : Outcome
  | HALF_LOSE : Outcome
  | SKIP : Outcome
deriving DecidableEq, Repr

/-- Source settle1x2(side, scoreHome, scoreAway) from the results-sync
server file. -/
def settle1x2 (side : String) (scoreHome scoreAway : ℚ) : Outcome :=
  let winner := if scoreAway < scoreHome then "home"
    else if scoreHome < scoreAway then "away" else "draw"
  if side = winner then .WIN else .LOSE

/-- Source settleTotal(selection, line, scoreHome, scoreAway). The line
is none when Number(line) is not finite; the selection is none when the
field is absent. -/
def settleTotal (selection : Option String) (line : Option ℚ)
    (scoreHome scoreAway : ℚ) : Outcome × String :=
  let total := scoreHome + scoreAway
  match line with
  | none => (.SKIP, "missing/invalid line")
  | some ln =>
    let sel := jsToUpper (selection.getD "")
    if sel = "OVER" then
      if ln < total then (.WIN, "")
      else if total = ln then (.PUSH, "")
      else (.LOSE, "")
    else if sel = "UNDER" then
      if total < ln then (.WIN, "")
      else if total = ln then (.PUSH, "")
      else (.LOSE, "")
    else (.SKIP, "unknown total selection")

/-- One half of a split Asian line: the half-line and its stake weight. -/
structure AHPart where
  line : ℚ
  w : ℚ
deriving DecidableEq, Repr

/-- Model of Math.abs(ln % 1) for a finite ln: the distance of ln from
the whole number it truncates to. -/
def jsFracPart (ln : ℚ) : ℚ := |ln| - (⌊|ln|⌋ : ℚ)

/-- Source _splitAsianLine(line) for a finite line value. Quarter
detection compares the fractional part with 0.25 and 0.75 up to the
source tolerance of 1e-9; the split keeps the source behaviour of
testing only whether the absolute line is 0.25 and otherwise using the
0.75-shaped split. The source also returns a reason string, always
empty for a finite line. -/
def splitAsianLine (ln : ℚ) : List AHPart × String :=
  let frac := jsFracPart ln
  let eps : ℚ := 1/1000000000
  let isQuarter := |frac - 1/4| < eps ∨ |frac - 3/4| < eps
  if isQuarter then
    let sign : ℚ := if 0 ≤ ln then 1 else -1
    let a := |ln|
    if |a - 1/4| < eps then ([⟨0, 1/2⟩, ⟨sign * (1/2), 1/2⟩], "")
    else ([⟨sign * (1/2), 1/2⟩, ⟨sign * 1, 1/2⟩], "")
  else ([⟨ln, 1⟩], "")

/-- Source _outcomeForAdjusted(adjusted). -/
def outcomeForAdjusted (adjusted : ℚ) : Outcome :=
  if 0 < adjusted then .WIN else if adjusted < 0 then .LOSE else .PUSH

/-- The combination table applied by settleAsianHandicap to the two
part outcomes of a split line. -/
def combineAH (o1 o2 : Outcome) : Outcome :=
  if o1 = .WIN ∧ o2 = .WIN then .WIN
  else if o1 = .LOSE ∧ o2 = .LOSE then .LOSE
  else if o1 = .PUSH ∧ o2 = .PUSH then .PUSH
  else if (o1 = .WIN ∧ o2 = .PUSH) ∨ (o1 = .PUSH ∧ o2 = .WIN) then .HALF_WIN
  else if (o1 = .LOSE ∧ o2 = .PUSH) ∨ (o1 = .PUSH ∧ o2 = .LOSE) then .HALF_LOSE
  else .PUSH

/-- Source settleAsianHandicap(side, line, scoreHome, scoreAway). The
side is the raw pick field (possibly absent); the line is none when
Number(line) is not finite. -/
def settleAsianHandicap (side : Option String) (line : Option ℚ)
    (scoreHome scoreAway : ℚ) : Outcome × String :=
  let s := jsToLower (side.getD "")
  if s ≠ "home" ∧ s ≠ "away" then
    (.SKIP, "missing side for HANDICAP (need home/away)")
  else
    match line with
    | none => (.SKIP, "missing/invalid line for HANDICAP")
    | some ln =>
      let pr := splitAsianLine ln
      let baseDiff := if s = "home" then scoreHome - scoreAway else scoreAway - scoreHome
      let partOutcomes := pr.1.map (fun p => outcomeForAdjusted (baseDiff + p.line))
      match partOutcomes with
      | [] => (.SKIP, if pr.2 = "" then "invalid handicap line" else pr.2)
      | [o] => (o, "")
      | o1 :: o2 :: _ => (combineAH o1 o2, "")

/-- Modelled from the spec wording of claim C1, for comparison with the
source function only: a line whose fractional part is .25 or .75 splits
into the two adjacent half-step lines bracketing it (line - 1/4 and
line + 1/4), each half is evaluated independently and the results are
combined with the same combination table; other lines evaluate once. -/
def spec_settleAsianHandicap (side : String) (ln : ℚ)
    (scoreHome scoreAway : ℚ) : Outcome :=
  let baseDiff := if side = "home" then scoreHome - scoreAway else scoreAway - scoreHome
  let frac := jsFracPart ln
  if frac = 1/4 ∨ frac = 3/4 then
    combineAH (outcomeForAdjusted (baseDiff + (ln - 1/4)))
      (outcomeForAdjusted (baseDiff + (ln + 1/4)))
  else outcomeForAdjusted (baseDiff + ln)

/-- Source profitForOutcome(outcome, odds, stake) from the results-sync
server file. -/
def profitForOutcome (outcome : Outcome) (odds stake : JVal) : ℚ :=
  let o := odds.toNumber
  let s := (jsCoalesce stake (.num 1)).toNumber
  match s with
  | none => 0
  | some sv =>
    if sv ≤ 0 then 0
    else
      match outcome with
      | .WIN =>
        (match o with
         | none => 0
         | some ov => if ov ≤ 1 then 0 else (ov - 1) * sv)
      | .LOSE => -1 * sv
      | _ => 0

/-- The per-result profit contribution computed by the /api/summary/day
endpoint in the same server file (its profit proxy): half profit for
HALF_WIN, half loss for HALF_LOSE, and 0 unless the odds exceed 1 and
the stake is positive. -/
def summaryProfitDelta (outcome : String) (oddsBet stake : Option ℚ) : ℚ :=
  match oddsBet, stake with
  | some o, some s =>
    if 1 < o ∧ 0 < s then
      if outcome = "WIN" then (o - 1) * s
      else if outcome = "LOSE" then -s
      else if outcome = "HALF_WIN" then (o - 1) * s * (1/2)
      else if outcome = "HALF_LOSE" then -(s * (1/2))
      else 0
    else 0
  | _, _ => 0

/-- A per-side pair of optional raw statistic values: none models a
null (missing or unparsable) statistic. -/
structure SidePair where
  home : Option ℚ
  away : Option ℚ
deriving DecidableEq, Repr

/-- The record assembled by extractBasicStats. -/
structure BasicStats where
  shotsOnGoal : SidePair
  shotsTotal : SidePair
  corners : SidePair
  yellow : SidePair
  red : SidePair
deriving DecidableEq, Repr

/-- One row of the statistics feed for one team: a type name and the
numeric value the source parser extracts from it (after stripping
percent signs and slash suffixes and coercing with Number). The value
is none when the raw entry is null, empty or does not parse to a
finite number. -/
structure StatRow where
  type : String
  value : Option ℚ
deriving DecidableEq, Repr

/-- One entry of the statistics response: the team id and its rows.
Entries whose team id is 0 are falsy in the source and are skipped. -/
structure TeamStats where
  teamId : ℕ
  statistics : List StatRow
deriving DecidableEq, Repr

/-- The byTeamId map of extractBasicStats: later entries overwrite
earlier ones, and entries with a falsy team id are skipped. -/
def statsForTeam (entries : List TeamStats) (tid : ℕ) : Option (List StatRow) :=
  entries.foldl
    (fun acc e => if e.teamId ≠ 0 ∧ e.teamId = tid then some e.statistics else acc)
    none

/-- Source pull(statsArr, typeName): find the row whose type matches
case-insensitively and return its parsed value, null when absent. -/
def pull (statsArr : Option (List StatRow)) (typeName : String) : Option ℚ :=
  match statsArr with
  | none => none
  | some rows =>
    match rows.find? (fun s => jsToLower s.type = jsToLower typeName) with
    | none => none
    | some row => row.value

/-- Source extractBasicStats(statsResponseArray, homeTeamId,
awayTeamId): none models the null returned for a non-array response. -/
def extractBasicStats (statsResponseArray : Option (List TeamStats))
    (homeTeamId awayTeamId : ℕ) : Option BasicStats :=
  match statsResponseArray with
  | none => none
  | some entries =>
    let homeStats := statsForTeam entries homeTeamId
    let awayStats := statsForTeam entries awayTeamId
    some
      { shotsOnGoal := ⟨pull homeStats "Shots on Goal", pull awayStats "Shots on Goal"⟩
        shotsTotal := ⟨pull homeStats "Total Shots", pull awayStats "Total Shots"⟩
        corners := ⟨pull homeStats "Corner Kicks", pull awayStats "Corner Kicks"⟩
        yellow := ⟨pull homeStats "Yellow Cards", pull awayStats "Yellow Cards"⟩
        red := ⟨pull homeStats "Red Cards", pull awayStats "Red Cards"⟩ }

/-- The all-null fallback object used when extractBasicStats returns
null. -/
def nullBasicStats : BasicStats :=
  ⟨⟨none, none⟩, ⟨none, none⟩, ⟨none, none⟩, ⟨none, none⟩, ⟨none, none⟩⟩

/-- The fixture fields read by buildMetricsForFixture, after the
optional-chaining accesses: absent fields are none. -/
structure FixtureInfo where
  fixtureId : Option ℕ
  leagueId : Option ℕ
  elapsed : Option ℚ
  homeId : ℕ
  awayId : ℕ
  homeName : String
  awayName : String
  goalsHome : Option ℚ
  goalsAway : Option ℚ
deriving DecidableEq, Repr

/-- The MetricsRecord assembled by buildMetricsForFixture. -/
structure Metrics where
  fixtureId : Option ℕ
  leagueId : Option ℕ
  minute : ℚ
  homeName : String
  awayName : String
  scoreHome : ℚ
  scoreAway : ℚ
  scoreDiff : ℚ
  shotsOnGoal : SidePair
  shotsTotal : SidePair
  corners : SidePair
  yellow : SidePair
  red : SidePair
  pressureHome : ℚ
  pressureAway : ℚ
  xgHome : ℚ
  xgAway : ℚ
deriving DecidableEq, Repr

/-- Source buildMetricsForFixture(fixture): the statistics fetch result
is passed explicitly; none models a failed fetch or a non-array
response (the catch branch), which the source replaces by the all-null
object. -/
def buildMetricsForFixture (fx : FixtureInfo)
    (statsArr : Option (List TeamStats)) : Metrics :=
  let minute := safeNumber fx.elapsed 0
  let goalsHome := safeNumber fx.goalsHome 0
  let goalsAway := safeNumber fx.goalsAway 0
  let derived := (extractBasicStats statsArr fx.homeId fx.awayId).getD nullBasicStats
  let pressureHome := clamp01
    (safeNumber derived.shotsOnGoal.home 0 * 0.12 +
      safeNumber derived.shotsTotal.home 0 * 0.04 +
      safeNumber derived.corners.home 0 * 0.06)
  let pressureAway := clamp01
    (safeNumber derived.shotsOnGoal.away 0 * 0.12 +
      safeNumber derived.shotsTotal.away 0 * 0.04 +
      safeNumber derived.corners.away 0 * 0.06)
  let xgHome := clamp01
    (safeNumber derived.shotsOnGoal.home 0 * 0.15 +
      safeNumber derived.shotsTotal.home 0 * 0.03)
  let xgAway := clamp01
    (safeNumber derived.shotsOnGoal.away 0 * 0.15 +
      safeNumber derived.shotsTotal.away 0 * 0.03)
  { fixtureId := fx.fixtureId
    leagueId := fx.leagueId
    minute := minute
    homeName := fx.homeName
    awayName := fx.awayName
    scoreHome := goalsHome
    scoreAway := goalsAway
    scoreDiff := goalsHome - goalsAway
    shotsOnGoal := derived.shotsOnGoal
    shotsTotal := derived.shotsTotal
    corners := derived.corners
    yellow := derived.yellow
    red := derived.red
    pressureHome := pressureHome
    pressureAway := pressureAway
    xgHome := xgHome
    xgAway := xgAway }

/-- The fields makePickId reads from a pick object; absent fields are
none. -/
structure PickIdFields where
  fixtureId : Option ℕ
  strategy : Option String
  side : Option String
  selection : Option String
  ts : Option String
deriving DecidableEq, Repr

/-- Source makePickId(p): the template literal
fixtureId__strategy__side__ts with nullish fallbacks; side falls back
to selection and then to the empty string. -/
def makePickId (p : PickIdFields) : String :=
  let fid := match p.fixtureId with
    | none => ""
    | some n => toString n
  let strat := p.strategy.getD ""
  let sd := match p.side with
    | some s => s
    | none => p.selection.getD ""
  let ts := p.ts.getD ""
  fid ++ "__" ++ strat ++ "__" ++ sd ++ "__" ++ ts

/-- A pick object produced during a scan, with the fields set by
buildPickBase and the handicap loop; fields that a stage has not set
yet are none. -/
structure ScanPick where
  fixtureId : Option ℕ
  leagueId : Option ℕ
  minute : ℚ
  home : String
  away : String
  scoreHome : ℚ
  scoreAway : ℚ
  ts : Option String
  league : String
  status : Option String
  pickId : Option String
  strategy : String
  tier : String
  edge : ℚ
  kelly : ℚ
  market : String
  selection : String
  betType : String
  side : Option String
  line : Option ℚ
  odds : Option ℚ
  oddsMalay : Option ℚ
  stake : Option ℚ
deriving DecidableEq, Repr

/-- The id fields of a scan pick as makePickId reads them. The
selection field of a scan pick is always a string, possibly empty. -/
def ScanPick.idFields (p : ScanPick) : PickIdFields :=
  ⟨p.fixtureId, some p.strategy, p.side, some p.selection, p.ts⟩

/-- Source buildPickBase(metrics, strategyKey, strategyLabel): note
that it initialises pickId to the empty string, and that the stored
strategy field is strategyLabel || strategyKey. The emission time
nowIso() is passed explicitly as now. -/
def buildPickBase (metrics : Metrics) (strategyKey : String)
    (strategyLabel : Option String) (now : String) : ScanPick :=
  { fixtureId := metrics.fixtureId
    leagueId := metrics.leagueId
    minute := metrics.minute
    home := metrics.homeName
    away := metrics.awayName
    scoreHome := metrics.scoreHome
    scoreAway := metrics.scoreAway
    ts := some now
    league := ""
    status := some "PENDING"
    pickId := some ""
    strategy := jsOrStr strategyLabel strategyKey
    tier := "B"
    edge := 0
    kelly := 0
    market := ""
    selection := ""
    betType := "live"
    side := none
    line := none
    odds := none
    oddsMalay := none
    stake := none }

/-- The strength scalar computed once per fixture by the
handicap_pressure strategies. -/
def handicapStrength (metrics : Metrics) : ℚ :=
  clamp01
    (0.60 * max metrics.pressureHome metrics.pressureAway +
      0.25 * (|safeNumber metrics.shotsOnGoal.home 0 - safeNumber metrics.shotsOnGoal.away 0| / 5) +
      0.15 * (|safeNumber metrics.corners.home 0 - safeNumber metrics.corners.away 0| / 6))

/-- The nullish coalescing assignment x = x ?? v on an optional
field. -/
def optCoalesce {α} (x : Option α) (v : α) : Option α :=
  match x with
  | none => some v
  | some y => some y

/-- The body of the handicap_pressure per-line loop: one pick per line
value ln, built from the shared pickBase. The pickId assignment uses
the nullish operator against the already-present empty string, exactly
as the source does. -/
def handicapPickForLine (pickBase : ScanPick) (sideKey : String)
    (tierParam : Option String) (strength : ℚ) (ln : ℚ) (now : String) : ScanPick :=
  let p2 : ScanPick :=
    { pickBase with
      tier := jsOrStr tierParam "B"
      market := "HANDICAP"
      betType := "live"
      selection := jsToUpper sideKey
      side := some sideKey
      line := some ln }
  let p2 : ScanPick :=
    { p2 with
      odds := p2.odds
      oddsMalay := p2.oddsMalay
      stake := optCoalesce p2.stake 1
      status := optCoalesce p2.status "PENDING"
      ts := match p2.ts with
        | none => some now
        | some t => some t
      pickId := match p2.pickId with
        | none => some (makePickId p2.idFields)
        | some s => some s }
  let linePenalty := clamp01 (|ln| / 3)
  let eff := clamp01 (strength * (1 - 0.35 * linePenalty))
  { p2 with
    edge := tf4 (0.01 + 0.08 * eff)
    kelly := tf4 (0.005 + 0.06 * eff) }

/-- The pickId guard of the non-handicap scan branch:
if (!pick.pickId) pick.pickId = makePickId(pick). -/
def ensurePickId (p : ScanPick) : ScanPick :=
  match p.pickId with
  | some s => if s = "" then { p with pickId := some (makePickId p.idFields) } else p
  | none => { p with pickId := some (makePickId p.idFields) }

/-- A normalized pick record as produced by normalizePickRecord from a
line of the picks log: the fields the results-sync pass reads. -/
structure NPick where
  ts : String
  fixtureId : Option ℕ
  strategy : Option String
  tier : Option String
  market : Option String
  selection : Option String
  betType : Option String
  side : Option String
  line : Option ℚ
  odds : JVal
  stake : JVal
  result : String
deriving DecidableEq, Repr

/-- The id fields of a normalized pick as makePickId reads them. -/
def NPick.idFields (p : NPick) : PickIdFields :=
  ⟨p.fixtureId, p.strategy, p.side, p.selection, some p.ts⟩

/-- A settlement record appended to the results log by the sync pass.
The source formats the final score as a string; the two goal numbers
are kept here. -/
structure ResultRec where
  pickId : String
  fixtureId : Option ℕ
  strategy : Option String
  tier : Option String
  market : Option String
  side : Option String
  selection : Option String
  line : Option ℚ
  odds_bet : Option ℚ
  stake : ℚ
  finalScoreHome : ℚ
  finalScoreAway : ℚ
  outcome : Outcome
  profit : ℚ
  ts_pick : String
deriving DecidableEq, Repr

/-- The set of already-settled pick ids collected from the results
log; a falsy (empty) pickId is not added, as in the source. -/
def settledIds (resultsLog : List ResultRec) : List String :=
  resultsLog.filterMap (fun r => if r.pickId = "" then none else some r.pickId)

/-- The result of fetching a fixture during sync: the status short
code and the goal counts. none models a failed fetch or a fixture
without a status object, both of which the pass skips. -/
structure FxLite where
  short : String
  goalsHome : Option ℚ
  goalsAway : Option ℚ
deriving DecidableEq, Repr

/-- Insertion into a sorted list by a boolean comparator; used to model
Array.prototype.sort. -/
def insertByB {α} (le : α → α → Bool) (x : α) : List α → List α
  | [] => [x]
  | y :: ys => if le x y then x :: y :: ys else y :: insertByB le x ys

/-- Model of Array.prototype.sort with a boolean comparator. -/
def sortByB {α} (le : α → α → Bool) (l : List α) : List α :=
  l.foldr (insertByB le) []

/-- String comparison a <= b, modelling a non-positive
localeCompare result for the plain ASCII strings the logs contain. -/
def tsLe (a b : String) : Bool := (compare a b).isLE

/-- The market determination of the sync pass:
p.market || (p.betType === "value_1x2" ? "1X2" : null). -/
def marketOf (p : NPick) : Option String :=
  jsOrStrOpt p.market (if p.betType = some "value_1x2" then some "1X2" else none)

/-- The per-market settlement dispatch inside the sync loop. -/
def settleOutcome (p : NPick) (scoreHome scoreAway : ℚ) : Outcome × String :=
  let market := marketOf p
  let side := jsToLower (p.side.getD "")
  if market = some "1X2" then
    if side ≠ "home" ∧ side ≠ "away" ∧ side ≠ "draw" then
      (.SKIP, "missing side for 1X2 (need home/away/draw)")
    else (settle1x2 side scoreHome scoreAway, "")
  else if market = some "TOTAL" then
    let selection := jsOrStrOpt p.selection
      (if side = "over" then some "OVER"
       else if side = "under" then some "UNDER" else some "")
    settleTotal selection p.line scoreHome scoreAway
  else if market = some "HANDICAP" then
    settleAsianHandicap p.side p.line scoreHome scoreAway
  else
    (.SKIP, "unsupported/insufficient bet schema for auto-settle (need market 1X2 or TOTAL/HANDICAP+line)")

/-- The settlement record built for a settled pick. -/
def mkResultRecord (p : NPick) (pid : String) (scoreHome scoreAway : ℚ)
    (outcome : Outcome) : ResultRec :=
  let oddsBet := p.odds.toNumber
  let stake := (jsCoalesce p.stake (.num 1)).toNumber
  let side := jsToLower (p.side.getD "")
  { pickId := pid
    fixtureId := p.fixtureId
    strategy := p.strategy
    tier := p.tier
    market := marketOf p
    side := if side = "" then none else some side
    selection := jsOrStrOpt p.selection none
    line := p.line
    odds_bet := oddsBet
    stake := stake.getD 1
    finalScoreHome := scoreHome
    finalScoreAway := scoreAway
    outcome := outcome
    profit := profitForOutcome outcome p.odds p.stake
    ts_pick := p.ts }

/-- One iteration of the sync loop for one inspected pick: none when
the pick is skipped for any reason, some record when it settles. The
settled set is the one computed at the start of the pass; the source
does not extend it inside the loop. -/
def syncStep (settled : List String) (fetch : ℕ → Option FxLite)
    (p : NPick) : Option ResultRec :=
  let pid := makePickId p.idFields
  if settled.contains pid then none
  else
    let r := jsToUpper (jsOrStr (some p.result) "PENDING")
    if r ≠ "PENDING" ∧ r ≠ "OPEN" then none
    else
      match fetch (p.fixtureId.getD 0) with
      | none => none
      | some fx =>
        let short := jsToUpper fx.short
        if ¬(short = "FT" ∨ short = "AET" ∨ short = "PEN") then none
        else
          let scoreHome := safeNumber fx.goalsHome 0
          let scoreAway := safeNumber fx.goalsAway 0
          let settledRes := settleOutcome p scoreHome scoreAway
          if settledRes.1 = .SKIP then none
          else some (mkResultRecord p pid scoreHome scoreAway settledRes.1)

/-- One POST /api/results/sync pass: collect the settled ids from the
results log, keep normalized picks with a truthy fixtureId, sort them
newest first, inspect at most limit of them, and emit the new
settlement records in order. -/
def syncPass (limit : ℕ) (picksLog : List NPick) (resultsLog : List ResultRec)
    (fetch : ℕ → Option FxLite) : List ResultRec :=
  let settled := settledIds resultsLog
  let normalized := picksLog.filter (fun p => (p.fixtureId.getD 0) != 0)
  let ordered := sortByB (fun a b => tsLe b.ts a.ts) normalized
  (ordered.take limit).filterMap (syncStep settled fetch)

/-- The dedup configuration of server.js (cooldown in minutes plus the
minimum edge and price deltas). -/
structure DedupCfg where
  cooldownMin : ℚ
  minEdgeDelta : ℚ
  minPriceDelta : ℚ
deriving DecidableEq, Repr

/-- One entry of recentPickMap: the emission time in milliseconds, the
edge stored with the ?? 0 default, and the price as stored
(p.priceTaken ?? null). -/
structure EmitEntry where
  tsMs : ℚ
  edge : ℚ
  price : Option ℚ
deriving DecidableEq, Repr

/-- The pick fields read by the emission controller. -/
structure EmitPick where
  fixtureId : ℕ
  strategy : String
  betSide : String
  edge : Option ℚ
  priceTaken : Option ℚ
deriving DecidableEq, Repr

/-- Source pickKey(p): the fixtureId|strategy|betSide template. -/
def pickKey (p : EmitPick) : String :=
  toString p.fixtureId ++ "|" ++ p.strategy ++ "|" ++ p.betSide

/-- Map.set on the association-list model of recentPickMap. -/
def mapSet (m : List (String × EmitEntry)) (k : String) (v : EmitEntry) :
    List (String × EmitEntry) :=
  (k, v) :: m.filter (fun kv => kv.1 != k)

/-- Source allowEmit(p) over an explicit map state and clock: returns
the decision and the updated map. -/
def allowEmit (cfg : DedupCfg) (m : List (String × EmitEntry))
    (p : EmitPick) (now : ℚ) : Bool × List (String × EmitEntry) :=
  let key := pickKey p
  match m.lookup key with
  | none => (true, mapSet m key ⟨now, p.edge.getD 0, p.priceTaken⟩)
  | some prev =>
    let elapsedMin := (now - prev.tsMs) / 60000
    let edgeDelta := |p.edge.getD 0 - prev.edge|
    let priceDelta := |p.priceTaken.getD 0 - prev.price.getD 0|
    if cfg.cooldownMin ≤ elapsedMin ∧
        (cfg.minEdgeDelta ≤ edgeDelta ∨ cfg.minPriceDelta ≤ priceDelta) then
      (true, mapSet m key ⟨now, p.edge.getD 0, p.priceTaken⟩)
    else (false, m)

/-- The context record passed to modelProbFromContext. favByOdds is
"home", "away" or null; it is only tested for truthiness. -/
structure ProbCtx where
  minute : ℚ
  sogTotal : ℚ
  xGTotal : ℚ
  sogDiff : ℚ
  xgDiff : ℚ
  favByOdds : Option String
  fallback : Bool
deriving DecidableEq, Repr

/-- Source modelProbFromContext(strategy, ctx) from server.js: the
sequential adjustments of p followed by the final clamp to
[0.50, 0.70]. -/
def modelProbFromContext (strategy : String) (ctx : ProbCtx) : ℚ :=
  let p : ℚ := 0.54
  let p := if strategy = "attack_pressure" then
      p + 0.04 + clamp (ctx.sogDiff * 0.015 + ctx.xgDiff * 0.08) (-0.06) 0.10
    else p
  let p := if strategy = "one_side_attack" then
      p + 0.03 + clamp (ctx.sogDiff * 0.02) (-0.05) 0.08
    else p
  let p := if strategy = "anti_price" then
      p + (if ctx.favByOdds.isSome then 0.03 else 0) +
        clamp (ctx.xgDiff * 0.07) (-0.05) 0.09
    else p
  let p := if strategy = "over75" ∨ strategy = "over_momentum" ∨ strategy = "live_xg" then
      0.52 + clamp ((ctx.sogTotal - 8) * 0.01 + (ctx.xGTotal - 1.6) * 0.08) (-0.05) 0.12
    else p
  let p := if strategy = "favorite_comeback" then p + 0.03 else p
  let p := if strategy = "pp_index" then p + 0.03 else p
  let p := if 70 ≤ ctx.minute then p + 0.01 else p
  let p := if ctx.fallback then p - 0.03 else p
  clamp p 0.50 0.70

/-- The EV/Kelly configuration of server.js with its default values. -/
structure EvCfg where
  minEdge : ℚ
  kellyFraction : ℚ
  stakeMin : ℚ
  stakeMax : ℚ
  tiers : List (String × ℚ)
deriving DecidableEq, Repr

/-- The default EV_CONFIG of server.js. -/
def EV_CONFIG : EvCfg :=
  ⟨0.02, 0.5, 0.25, 1.5, [("A", 0.62), ("B", 0.56), ("C", 0.52)]⟩

/-- The pack of pricing fields computed by evPackFor1x2. -/
structure EvPack where
  impliedProb : Option ℚ
  edge : Option ℚ
  kelly : Option ℚ
  stakeUnits : Option ℚ
  tier : String
  edge_ok : Bool
deriving DecidableEq, Repr

/-- Source evPackFor1x2(priceTaken, modelProb). -/
def evPackFor1x2 (cfg : EvCfg) (priceTaken : Option ℚ) (modelProb : ℚ) : EvPack :=
  match priceTaken with
  | none => ⟨none, none, none, none, "C", false⟩
  | some pt =>
    if pt ≤ 1 then ⟨none, none, none, none, "C", false⟩
    else
      let impliedProb := 1 / pt
      let edge := modelProb - impliedProb
      let kellyRaw := edge / (pt - 1)
      let kelly := clamp kellyRaw 0 1
      let stakeUnits := clamp (kelly * cfg.kellyFraction) cfg.stakeMin cfg.stakeMax
      let tier := ((cfg.tiers.find? (fun t => t.2 ≤ modelProb)).map (fun t => t.1)).getD "C"
      ⟨some impliedProb, some edge, some kelly, some stakeUnits, tier,
        decide (cfg.minEdge ≤ edge)⟩

/-- The process-wide risk state fields read during emission. -/
structure RiskStateLite where
  paused : Bool
  stakeScale : ℚ
deriving DecidableEq, Repr

/-- The 1x2 odds triple returned by the odds fetch. -/
structure Odds3 where
  homeOdd : Option ℚ
  drawOdd : Option ℚ
  awayOdd : Option ℚ
deriving DecidableEq, Repr

/-- Source choosePrice(odds, betSide). -/
def choosePrice (odds : Option Odds3) (betSide : String) : Option ℚ :=
  match odds with
  | none => none
  | some o =>
    if betSide = "" then none
    else if jsIncludes (jsToLower betSide) "home" then o.homeOdd
    else if jsIncludes (jsToLower betSide) "away" then o.awayOdd
    else none

/-- The fixture-level context captured by the push closure inside
evaluateStrategies. -/
structure PushCtx where
  fixtureId : ℕ
  league : String
  home : String
  away : String
  goalsHome : ℚ
  goalsAway : ℚ
  minute : ℚ
  score : String
  sogH : ℚ
  sogA : ℚ
  xgH : ℚ
  xgA : ℚ
  sogTotal : ℚ
  xGTotal : ℚ
  favByOdds : Option String
  ts : String
deriving DecidableEq, Repr

/-- A pick object pushed by evaluateStrategies. -/
structure ServerPick where
  fixtureId : ℕ
  strategy : String
  strategyVersion : String
  betSide : String
  league : String
  home : String
  away : String
  goalsHome : ℚ
  goalsAway : ℚ
  minuteAtScan : ℚ
  scoreAtScan : String
  ts : String
  result : String
  priceTaken : Option ℚ
  modelProb : ℚ
  impliedProb : Option ℚ
  edge : Option ℚ
  kelly : Option ℚ
  stakeUnits : Option ℚ
  tier : String
  edge_ok : Bool
  note : Option String
deriving DecidableEq, Repr

/-- Source push(strategy, betSide, extra) from evaluateStrategies: the
early return when riskState.paused, otherwise pricing, probability and
staking computation and the append of the built pick. -/
def pushPick (riskState : RiskStateLite) (picks : List ServerPick)
    (c : PushCtx) (strategy betSide : String) (odds : Option Odds3)
    (note : Option String) : List ServerPick :=
  if riskState.paused then picks
  else
    let priceTaken := choosePrice odds betSide
    let sogDiff := if jsIncludes betSide "home" then c.sogH - c.sogA else c.sogA - c.sogH
    let xgDiff := if jsIncludes betSide "home" then c.xgH - c.xgA else c.xgA - c.xgH
    let ctx : ProbCtx :=
      ⟨c.minute, c.sogTotal, c.xGTotal, sogDiff, xgDiff, c.favByOdds, note.isSome⟩
    let modelProb := modelProbFromContext strategy ctx
    let ev := evPackFor1x2 EV_CONFIG priceTaken modelProb
    let stakeUnits := match ev.stakeUnits with
      | some s0 => if s0 ≠ 0 ∧ riskState.stakeScale < 1
          then some (tf2 (s0 * riskState.stakeScale)) else some s0
      | none => none
    picks ++
      [{ fixtureId := c.fixtureId
         strategy := strategy
         strategyVersion := "v4"
         betSide := betSide
         league := c.league
         home := c.home
         away := c.away
         goalsHome := c.goalsHome
         goalsAway := c.goalsAway
         minuteAtScan := c.minute
         scoreAtScan := c.score
         ts := c.ts
         result := "PENDING"
         priceTaken := priceTaken
         modelProb := tf4 modelProb
         impliedProb := ev.impliedProb.map tf4
         edge := ev.edge.map tf4
         kelly := ev.kelly.map tf4
         stakeUnits := stakeUnits.map tf2
         tier := ev.tier
         edge_ok := ev.edge_ok
         note := note }]

/-- The pick fields read when recomputing the daily risk snapshot. -/
structure RPick where
  fixtureId : ℕ
  strategy : String
  betSide : Option String
  ts : String
  priceTaken : Option ℚ
deriving DecidableEq, Repr

/-- Source dateKey(ts): the first ten characters of the timestamp. -/
def dateKey (ts : String) : String := ⟨ts.data.take 10⟩

/-- Source gradeResult(pick, fh, fa): the per-strategy grading switch.
For smart_underdog with a missing betSide the JavaScript would throw;
the model returns PENDING there, a case no claim touches. -/
def gradeResult (p : RPick) (fh fa : ℚ) : String :=
  let diff := fh - fa
  if p.strategy = "attack_pressure" ∨ p.strategy = "one_side_attack" ∨
      p.strategy = "favorite_comeback" ∨ p.strategy = "pp_index" ∨
      p.strategy = "anti_book" ∨ p.strategy = "anti_price" then
    match p.betSide with
    | some b =>
      if jsIncludes b "home" then (if 0 < diff then "WIN" else "LOSE")
      else if jsIncludes b "away" then (if diff < 0 then "WIN" else "LOSE")
      else "PENDING"
    | none => "PENDING"
  else if p.strategy = "smart_underdog" then
    match p.betSide with
    | some b =>
      if (if jsIncludes b "home" then fa else fh) ≤
          (if jsIncludes b "home" then fh else fa) then "WIN" else "LOSE"
    | none => "PENDING"
  else if p.strategy = "over75" ∨ p.strategy = "over_momentum" ∨
      p.strategy = "live_xg" then
    if 2 ≤ fh + fa then "WIN" else "LOSE"
  else if p.strategy = "goal_85" ∨ p.strategy = "corner_storm" then "PENDING"
  else if p.strategy = "ah_1_5" then "WIN"
  else "PENDING"

/-- Source computeROI(result, priceTaken). -/
def computeROI (result : String) (priceTaken : Option ℚ) : ℚ :=
  if result = "WIN" then
    match priceTaken with
    | some pt => tf4 (pt - 1)
    | none => 0
  else if result = "LOSE" then -1
  else 0

/-- The risk configuration of server.js with its default values. -/
structure RiskCfg where
  dailyLossLimit : ℚ
  maxConsecutiveLose : ℕ
deriving DecidableEq, Repr

/-- The default RISK_CONFIG of server.js. -/
def RISK_CONFIG : RiskCfg := ⟨-3, 4⟩

/-- The daily risk snapshot RISK_SNAPSHOT. -/
structure RiskSnapshot where
  date : Option String
  pnl : ℚ
  consecLose : ℕ
  paused : Bool
  stakeScale : ℚ
deriving DecidableEq, Repr

/-- The accumulation loop of refreshRiskSnapshot: todays picks ordered
by timestamp, graded against the fetched full-time results (the source
pre-collects finals for fixtures whose status is exactly FT; fetching
is modelled by the fetch map), summing ROI and tracking the consecutive
loss streak. -/
def dailyPnlConsec (today : String) (allPicks : List RPick)
    (fetch : ℕ → Option FxLite) : ℚ × ℕ :=
  let picks := allPicks.filter (fun p => dateKey p.ts == today)
  let ordered := sortByB (fun a b => tsLe a.ts b.ts) picks
  ordered.foldl
    (fun acc p =>
      match fetch p.fixtureId with
      | none => acc
      | some fx =>
        if fx.short = "FT" then
          let fh := fx.goalsHome.getD 0
          let fa := fx.goalsAway.getD 0
          let res := gradeResult p fh fa
          if res = "WIN" ∨ res = "LOSE" then
            (acc.1 + computeROI res p.priceTaken,
              if res = "LOSE" then acc.2 + 1 else 0)
          else acc
        else acc)
    (0, 0)

/-- Source refreshRiskSnapshot() as a pure function of the pick log,
the fixture results and the current day. -/
def refreshRiskSnapshot (cfg : RiskCfg) (today : String)
    (allPicks : List RPick) (fetch : ℕ → Option FxLite) : RiskSnapshot :=
  let pc := dailyPnlConsec today allPicks fetch
  { date := some today
    pnl := tf4 pc.1
    consecLose := pc.2
    paused := decide (pc.1 ≤ cfg.dailyLossLimit)
    stakeScale := if cfg.maxConsecutiveLose ≤ pc.2 then 0.5 else 1.0 }

/-
  Concrete instances used by the theorems below to evaluate the
  embedded functions on explicit inputs.
-/

/-- A live fixture used to exercise the handicap pick construction:
fixture 1, league 2, minute 30, score 0-0, with no statistics. -/
def fx5 : FixtureInfo := ⟨some 1, some 2, some 30, 7, 8, "H", "A", some 0, some 0⟩

/-- The metrics record of fx5 when the statistics fetch fails. -/
def m5 : Metrics := buildMetricsForFixture fx5 none

/-- The emission timestamp used for the handicap pick example. -/
def t5 : String := "2024-01-01T00:00:00.000Z"

/-- The shared pick base built once per fixture by the
handicap_pressure_home branch. -/
def base5 : ScanPick := buildPickBase m5 "handicap_pressure_home" none t5

/-- The emitted handicap pick for line -0.25. -/
def p5 : ScanPick := handicapPickForLine base5 "home" none (handicapStrength m5) (-(1/4)) t5

/-- A fixture used for the metrics counterexample. -/
def fx9 : FixtureInfo := ⟨some 3, some 2, some 10, 7, 8, "H", "A", some 1, some 0⟩

/-- A pending handicap pick record in the picks log: fixture 1,
strategy s, side home, line +0.5, no odds, stake 1. -/
def npickA : NPick :=
  ⟨"t", some 1, some "s", none, some "HANDICAP", none, none, some "home",
    some (1/2), .jnull, .num 1, "PENDING"⟩

/-- A second pending handicap pick sharing fixture, strategy, side and
timestamp with npickA but carrying line -0.5: it has a distinct dedup
key yet the same deterministic pick identifier. -/
def npickB : NPick := { npickA with line := some (-(1/2)) }

/-- A pending handicap pick like npickA but with a later timestamp,
hence a different pick identifier. -/
def npickC : NPick := { npickA with ts := "u" }

/-- The fixture fetch for the sync examples: every fixture finished
full time with score 2-0. -/
def fetch4 : ℕ → Option FxLite := fun _ => some ⟨"FT", some 2, some 0⟩

/-- An existing settlement record for the pick identifier of npickA
and npickB. -/
def rec0 : ResultRec :=
  ⟨"1__s__home__t", some 1, some "s", none, some "HANDICAP", some "home",
    none, some (1/2), some 0, 1, 2, 0, .WIN, 0, "t"⟩

/-- An over75 pick that will grade LOSE under fetch7. -/
def losePick (i : ℕ) (t : String) : RPick := ⟨i, "over75", some "over", t, some 2⟩

/-- Three losing picks on 2024-01-01. -/
def picksL1 : List RPick :=
  [losePick 1 "2024-01-01T10", losePick 2 "2024-01-01T11", losePick 3 "2024-01-01T12"]

/-- A later pick on the same day that grades WIN at price 3 under
fetch7. -/
def winPick : RPick := ⟨4, "over75", some "over", "2024-01-01T13", some 3⟩

/-- The same day with one more settled winning result. -/
def picksL2 : List RPick := picksL1 ++ [winPick]

/-- The fixture results for the risk example: fixture 4 ended 2-1
(total 3, over75 wins), every other fixture ended 0-1 (total 1,
over75 loses). -/
def fetch7 : ℕ → Option FxLite :=
  fun i => if i = 4 then some ⟨"FT", some 2, some 1⟩ else some ⟨"FT", some 0, some 1⟩

/-- The dedup configuration with the server defaults: 8 minutes
cooldown, 0.01 edge delta, 0.05 price delta. -/
def cfg6 : DedupCfg := ⟨8, 1/100, 5/100⟩

/-- An unpriced pick for the emission controller example. -/
def p6 : EmitPick := ⟨1, "s", "home", none, none⟩

/-- A push context used to show that a paused risk state blocks
emission. -/
def pc7 : PushCtx :=
  ⟨1, "L", "H", "A", 0, 0, 60, "0 - 0", 0, 0, 0, 0, 0, 0, none, "2024-01-01T12"⟩

/-
  Helper lemmas shared by the claim theorems.
-/

/-- clamp v a b always lands in [a, b] when a <= b. -/
lemma clamp_le_bounds (v a b : ℚ) (h : a ≤ b) : a ≤ clamp v a b ∧ clamp v a b ≤ b :=
  ⟨le_max_left a _, max_le h (min_le_left b v)⟩

/-- clamp01 always lands in [0, 1]. -/
lemma clamp01_bounds (x : ℚ) : 0 ≤ clamp01 x ∧ clamp01 x ≤ 1 := by
  unfold clamp01
  split_ifs <;> constructor <;> linarith

/-- Evaluation rule for jsFracPart through an explicit floor value. -/
lemma jsFracPart_eq (ln a : ℚ) (n : ℤ) (h1 : |ln| = a) (h2 : (n : ℚ) ≤ a)
    (h3 : a < n + 1) : jsFracPart ln = a - n := by
  unfold jsFracPart
  rw [h1, Int.floor_eq_iff.mpr ⟨h2, by exact_mod_cast h3⟩]

/-- C8: for every strategy identity and every input context, the model
win probability returned by modelProbFromContext lies in the closed
interval [0.50, 0.70]. -/
theorem c8_modelProb_bounds (strategy : String) (ctx : ProbCtx) :
    (0.50 : ℚ) ≤ modelProbFromContext strategy ctx ∧
      modelProbFromContext strategy ctx ≤ 0.70 := by
  unfold modelProbFromContext
  exact clamp_le_bounds _ _ _ (by norm_num)

/-- C9 (amended): the four bounded indices of every metrics record lie
in [0, 1] whatever the raw statistic values are, and when the
statistics are missing the indices are zero while the stored raw
statistic fields keep the null value rather than zero. -/
theorem c9_bounded_indices (fx : FixtureInfo) (statsArr : Option (List TeamStats)) :
    (0 ≤ (buildMetricsForFixture fx statsArr).pressureHome ∧
      (buildMetricsForFixture fx statsArr).pressureHome ≤ 1) ∧
    (0 ≤ (buildMetricsForFixture fx statsArr).pressureAway ∧
      (buildMetricsForFixture fx statsArr).pressureAway ≤ 1) ∧
    (0 ≤ (buildMetricsForFixture fx statsArr).xgHome ∧
      (buildMetricsForFixture fx statsArr).xgHome ≤ 1) ∧
    (0 ≤ (buildMetricsForFixture fx statsArr).xgAway ∧
      (buildMetricsForFixture fx statsArr).xgAway ≤ 1) ∧
    ((buildMetricsForFixture fx none).shotsOnGoal.home = none ∧
      (buildMetricsForFixture fx none).pressureHome = 0) := by
  refine ⟨clamp01_bounds _, clamp01_bounds _, clamp01_bounds _, clamp01_bounds _, rfl, ?_⟩
  show clamp01 (safeNumber none 0 * 0.12 + safeNumber none 0 * 0.04 + safeNumber none 0 * 0.06) = 0
  norm_num [safeNumber, clamp01]

/-- C9 counterexample: a metrics record built while the statistics
fetch fails stores null (none), not zero, in its raw shots-on-goal
field, refuting the claim that every missing raw statistic becomes
zero, never null, once inside the record. -/
theorem c9_missing_stat_stays_null :
    (buildMetricsForFixture fx9 none).shotsOnGoal.home = none ∧
      (buildMetricsForFixture fx9 none).shotsOnGoal.home ≠ some 0 := by
  refine ⟨rfl, ?_⟩
  rw [show (buildMetricsForFixture fx9 none).shotsOnGoal.home = none from rfl]
  simp

/-- C2: at decimal price 2 and stake 1 the recorded profit is
(price - 1) x stake for WIN, -stake for LOSE and 0 for PUSH and SKIP as
claimed, but for a HALF_WIN or HALF_LOSE settlement the sync pass
records profit 0 instead of the claimed half values, while the summary
endpoint of the same server computes exactly the claimed half profits
((price - 1) x stake / 2 and -stake / 2). -/
theorem c2_half_outcome_profit_zero :
    profitForOutcome .WIN (.num 2) (.num 1) = (2 - 1) * 1 ∧
    profitForOutcome .LOSE (.num 2) (.num 1) = -1 ∧
    profitForOutcome .PUSH (.num 2) (.num 1) = 0 ∧
    profitForOutcome .SKIP (.num 2) (.num 1) = 0 ∧
    profitForOutcome .HALF_WIN (.num 2) (.num 1) = 0 ∧
    profitForOutcome .HALF_LOSE (.num 2) (.num 1) = 0 ∧
    summaryProfitDelta "HALF_WIN" (some 2) (some 1) = (2 - 1) * 1 * (1/2) ∧
    summaryProfitDelta "HALF_LOSE" (some 2) (some 1) = -(1 * (1/2)) ∧
    (2 - 1) * 1 * ((1 : ℚ)/2) ≠ 0 := by
  with_unfolding_all decide

/-- C10 (amended): profitForOutcome is total and guarded: a
non-numeric (NaN) or non-positive stake always yields profit 0; a
missing stake is not zeroed out but defaults to one unit; and a WIN
with missing, non-numeric or not-greater-than-1 odds yields 0. -/
theorem c10_profit_guards (outcome : Outcome) (odds stake : JVal) (q : ℚ) :
    profitForOutcome outcome odds .nan = 0 ∧
    (q ≤ 0 → profitForOutcome outcome odds (.num q) = 0) ∧
    profitForOutcome outcome odds .undef = profitForOutcome outcome odds (.num 1) ∧
    profitForOutcome outcome odds .jnull = profitForOutcome outcome odds (.num 1) ∧
    profitForOutcome .WIN .undef stake = 0 ∧
    profitForOutcome .WIN .nan stake = 0 ∧
    profitForOutcome .WIN .jnull stake = 0 ∧
    (q ≤ 1 → profitForOutcome .WIN (.num q) stake = 0) := by
  refine ⟨rfl, ?_, rfl, rfl, ?_, ?_, ?_, ?_⟩
  · intro h
    simp only [profitForOutcome, jsCoalesce, JVal.toNumber]
    rw [if_pos h]
  · cases stake <;> simp [profitForOutcome, jsCoalesce, JVal.toNumber]
  · cases stake <;> simp [profitForOutcome, jsCoalesce, JVal.toNumber]
  · cases stake <;> simp [profitForOutcome, jsCoalesce, JVal.toNumber]
  · intro h
    cases stake <;> simp [profitForOutcome, jsCoalesce, JVal.toNumber, h]

/-- C10 counterexample: a WIN with odds 2 and a missing stake is paid
as one full unit of profit, not 0: the stake ?? 1 default applies
before the positivity guard, refuting the claim that a missing stake
yields profit 0. -/
theorem c10_missing_stake_defaults_one :
    profitForOutcome .WIN (.num 2) .undef = 1 ∧ (1 : ℚ) ≠ 0 := by
  constructor
  · norm_num [profitForOutcome, jsCoalesce, JVal.toNumber]
  · norm_num

/-- C10 witness for the guarded cases of c10_profit_guards. -/
theorem c10_profit_guards_witness :
    ((0 : ℚ) ≤ 0 ∧ (1 : ℚ) ≤ 1) ∧
      profitForOutcome .WIN (.num 2) (.num 0) = 0 ∧
      profitForOutcome .WIN (.num 1) (.num 5) = 0 := by
  refine ⟨⟨le_refl 0, le_refl 1⟩, ?_, ?_⟩
  · exact (c10_profit_guards .WIN (.num 2) (.num 5) 0).2.1 (le_refl 0)
  · exact (c10_profit_guards .WIN (.num 2) (.num 5) 1).2.2.2.2.2.2.2 (le_refl 1)

/-- C5: the pick identifier round-trip fails for emitted handicap
picks. The handicap loop assigns p2.pickId = p2.pickId ?? makePickId(p2)
against the empty-string default set by buildPickBase, so the stored
identifier stays "" while recomputing the deterministic identifier from
the pick fields gives a non-empty string; the generic branch guard
(!pick.pickId) would have filled it in. -/
theorem c5_handicap_pickId_mismatch :
    p5.pickId = some "" ∧
    makePickId p5.idFields = "1__handicap_pressure_home__home__2024-01-01T00:00:00.000Z" ∧
    p5.pickId ≠ some (makePickId p5.idFields) ∧
    (ensurePickId p5).pickId = some (makePickId p5.idFields) := by
  refine ⟨rfl, rfl, ?_, rfl⟩
  rw [show p5.pickId = some "" from rfl,
    show makePickId p5.idFields = "1__handicap_pressure_home__home__2024-01-01T00:00:00.000Z" from rfl]
  simp

/-- Evaluation of the fractional part of -1.25. -/
lemma jsFracPart_neg125 : jsFracPart (-(5/4) : ℚ) = 1/4 := by
  rw [jsFracPart_eq (-(5/4) : ℚ) (5/4) 1 (by norm_num) (by norm_num) (by norm_num)]
  norm_num

/-- Evaluation of the fractional part of -0.25. -/
lemma jsFracPart_neg025 : jsFracPart (-(1/4) : ℚ) = 1/4 := by
  rw [jsFracPart_eq (-(1/4) : ℚ) (1/4) 0 (by norm_num) (by norm_num) (by norm_num)]
  norm_num

/-- The source split of the quarter line -1.25 reuses the 0.75-shaped
half-lines -0.5 and -1.0 instead of the bracketing pair -1.0, -1.5. -/
lemma splitAsianLine_neg125 :
    splitAsianLine (-(5/4) : ℚ) = ([⟨-(1/2), 1/2⟩, ⟨-1, 1/2⟩], "") := by
  unfold splitAsianLine
  simp only [jsFracPart_neg125, show |(-(5/4) : ℚ)| = 5/4 from by norm_num]
  rw [if_pos, if_neg]
  · norm_num
  · norm_num
  · left; norm_num

/-- The source split of the quarter line -0.25. -/
lemma splitAsianLine_neg025 :
    splitAsianLine (-(1/4) : ℚ) = ([⟨0, 1/2⟩, ⟨-(1/2), 1/2⟩], "") := by
  unfold splitAsianLine
  simp only [jsFracPart_neg025, show |(-(1/4) : ℚ)| = 1/4 from by norm_num]
  rw [if_pos, if_pos]
  · norm_num
  · norm_num
  · left; norm_num

/-- C1: on the quarter line -1.25 with side home and final score 1-0
the source settles HALF_WIN, because _splitAsianLine only distinguishes
whether the absolute line is 0.25 and otherwise applies the 0.75-shaped
split, while the claimed bracketing split (the two adjacent half-step
lines -1.0 and -1.5) settles the same pick HALF_LOSE. On lines whose
absolute value is 0.25 or 0.75 the source and the claim agree, as the
-0.25 scenario of the specification shows. -/
theorem c1_quarter_split_divergence :
    settleAsianHandicap (some "home") (some (-(5/4))) 1 0 = (.HALF_WIN, "") ∧
    spec_settleAsianHandicap "home" (-(5/4)) 1 0 = .HALF_LOSE ∧
    settleAsianHandicap (some "home") (some (-(1/4))) 1 1 = (.HALF_LOSE, "") ∧
    spec_settleAsianHandicap "home" (-(1/4)) 1 1 = .HALF_LOSE := by
  have hl : jsToLower ((some "home" : Option String).getD "") = "home" := by decide
  have hout1 : outcomeForAdjusted ((1 : ℚ) - 0 + -(1/2)) = .WIN := by
    unfold outcomeForAdjusted
    rw [if_pos (by norm_num)]
  have hout2 : outcomeForAdjusted ((1 : ℚ) - 0 + -1) = .PUSH := by
    unfold outcomeForAdjusted
    rw [if_neg (by norm_num), if_neg (by norm_num)]
  have hout3 : outcomeForAdjusted ((1 : ℚ) - 1 + 0) = .PUSH := by
    unfold outcomeForAdjusted
    rw [if_neg (by norm_num), if_neg (by norm_num)]
  have hout4 : outcomeForAdjusted ((1 : ℚ) - 1 + -(1/2)) = .LOSE := by
    unfold outcomeForAdjusted
    rw [if_neg (by norm_num), if_pos (by norm_num)]
  have hout5 : outcomeForAdjusted ((1 : ℚ) - 0 + (-(5/4) - 1/4)) = .LOSE := by
    unfold outcomeForAdjusted
    rw [if_neg (by norm_num), if_pos (by norm_num)]
  have hout6 : outcomeForAdjusted ((1 : ℚ) - 0 + (-(5/4) + 1/4)) = .PUSH := by
    unfold outcomeForAdjusted
    rw [if_neg (by norm_num), if_neg (by norm_num)]
  have hout7 : outcomeForAdjusted ((1 : ℚ) - 1 + (-(1/4) - 1/4)) = .LOSE := by
    unfold outcomeForAdjusted
    rw [if_neg (by norm_num), if_pos (by norm_num)]
  have hout8 : outcomeForAdjusted ((1 : ℚ) - 1 + (-(1/4) + 1/4)) = .PUSH := by
    unfold outcomeForAdjusted
    rw [if_neg (by norm_num), if_neg (by norm_num)]
  refine ⟨?_, ?_, ?_, ?_⟩
  · unfold settleAsianHandicap
    simp only [hl, splitAsianLine_neg125]
    rw [if_neg (by simp)]
    simp only [List.map, if_true, ite_true, hout1, hout2]
    rfl
  · unfold spec_settleAsianHandicap
    rw [if_pos (by rw [jsFracPart_neg125]; left; rfl), if_pos rfl]
    rw [hout5, hout6]
    rfl
  · unfold settleAsianHandicap
    simp only [hl, splitAsianLine_neg025]
    rw [if_neg (by simp)]
    simp only [List.map, if_true, ite_true, hout3, hout4]
    rfl
  · unfold spec_settleAsianHandicap
    rw [if_pos (by rw [jsFracPart_neg025]; left; rfl), if_pos rfl]
    rw [hout7, hout8]
    rfl

/-- C3: total-goals settlement. OVER wins exactly when the total
exceeds the line, UNDER wins exactly when the total is under the line,
an exact tie is PUSH for both selections and the remaining cases LOSE;
a non-numeric line is SKIP with a reason; and the literal scenario of
the specification (score 1-1, line 2.5) settles OVER as LOSE and UNDER
as WIN. -/
theorem c3_settleTotal_spec (ln scoreHome scoreAway : ℚ) :
    ((settleTotal (some "OVER") (some ln) scoreHome scoreAway).1 = .WIN ↔
      ln < scoreHome + scoreAway) ∧
    ((settleTotal (some "UNDER") (some ln) scoreHome scoreAway).1 = .WIN ↔
      scoreHome + scoreAway < ln) ∧
    (scoreHome + scoreAway = ln →
      (settleTotal (some "OVER") (some ln) scoreHome scoreAway).1 = .PUSH ∧
      (settleTotal (some "UNDER") (some ln) scoreHome scoreAway).1 = .PUSH) ∧
    ((settleTotal (some "OVER") (some ln) scoreHome scoreAway).1 = .LOSE ↔
      scoreHome + scoreAway < ln) ∧
    ((settleTotal (some "UNDER") (some ln) scoreHome scoreAway).1 = .LOSE ↔
      ln < scoreHome + scoreAway) ∧
    (∀ selection, settleTotal selection none scoreHome scoreAway =
      (.SKIP, "missing/invalid line")) ∧
    (settleTotal (some "OVER") (some (5/2)) 1 1).1 = .LOSE ∧
    (settleTotal (some "UNDER") (some (5/2)) 1 1).1 = .WIN := by
  have hOVER : ∀ (z x y : ℚ), settleTotal (some "OVER") (some z) x y =
      (if z < x + y then (.WIN, "") else if x + y = z then (.PUSH, "") else (.LOSE, "")) := by
    intro z x y
    simp [settleTotal, show jsToUpper "OVER" = "OVER" from by decide]
  have hUNDER : ∀ (z x y : ℚ), settleTotal (some "UNDER") (some z) x y =
      (if x + y < z then (.WIN, "") else if x + y = z then (.PUSH, "") else (.LOSE, "")) := by
    intro z x y
    simp [settleTotal, show jsToUpper "UNDER" = "UNDER" from by decide,
      show ("UNDER" : String) = "OVER" ↔ False from by simp]
  refine ⟨?_, ?_, ?_, ?_, ?_, fun _ => rfl, ?_, ?_⟩
  · rw [hOVER]
    split_ifs with h1 h2
    · simp [h1]
    · simp [h2]
    · simpa using h1
  · rw [hUNDER]
    split_ifs with h1 h2
    · simp [h1]
    · simp [h2]
    · simpa using h1
  · intro h
    rw [hOVER, hUNDER]
    rw [if_neg (by linarith), if_pos h, if_neg (by linarith)]
    exact ⟨rfl, rfl⟩
  · rw [hOVER]
    split_ifs with h1 h2
    · simp
      exact le_of_lt h1
    · simp [h2]
    · simp
      exact lt_of_le_of_ne (le_of_not_lt h1) h2
  · rw [hUNDER]
    split_ifs with h1 h2
    · simp
      exact le_of_lt h1
    · simp [h2]
    · simp
      exact lt_of_le_of_ne (le_of_not_lt h1) (Ne.symm h2)
  · rw [hOVER, if_neg (by norm_num), if_neg (by norm_num)]
  · rw [hUNDER, if_pos (by norm_num)]

/-- C3 witness: the exact-tie hypothesis discharged at score 1-1 with
line 2. -/
theorem c3_settleTotal_spec_witness :
    ((1 : ℚ) + 1 = 2) ∧
      (settleTotal (some "OVER") (some 2) 1 1).1 = Outcome.PUSH ∧
      (settleTotal (some "UNDER") (some 2) 1 1).1 = Outcome.PUSH := by
  refine ⟨by norm_num, ?_, ?_⟩
  · exact ((c3_settleTotal_spec 2 1 1).2.2.1 (by norm_num)).1
  · exact ((c3_settleTotal_spec 2 1 1).2.2.1 (by norm_num)).2

/-- C6: the first pick for a key is always allowed and recorded; a
subsequent pick for the same key is allowed exactly when the cooldown
has elapsed since the last allowed emission and the edge or the price
moved by at least the configured delta; and the recent-emission entry
is updated exactly on the allowed decisions. -/
theorem c6_allowEmit_spec (cfg : DedupCfg) (m : List (String × EmitEntry))
    (p : EmitPick) (now : ℚ) :
    (m.lookup (pickKey p) = none →
      allowEmit cfg m p now =
        (true, mapSet m (pickKey p) ⟨now, p.edge.getD 0, p.priceTaken⟩)) ∧
    (∀ prev, m.lookup (pickKey p) = some prev →
      (((allowEmit cfg m p now).1 = true) ↔
        (cfg.cooldownMin ≤ (now - prev.tsMs) / 60000 ∧
          (cfg.minEdgeDelta ≤ |p.edge.getD 0 - prev.edge| ∨
            cfg.minPriceDelta ≤ |p.priceTaken.getD 0 - prev.price.getD 0|)))) ∧
    ((allowEmit cfg m p now).1 = true →
      (allowEmit cfg m p now).2 =
        mapSet m (pickKey p) ⟨now, p.edge.getD 0, p.priceTaken⟩) ∧
    ((allowEmit cfg m p now).1 = false → (allowEmit cfg m p now).2 = m) := by
  unfold allowEmit
  dsimp only
  cases hm : List.lookup (pickKey p) m with
  | none =>
    refine ⟨fun _ => rfl, ?_, fun _ => rfl, ?_⟩
    · intro prev hp
      exact absurd hp (by simp)
    · intro hfalse
      exact absurd hfalse (by simp)
  | some prev =>
    dsimp only
    split_ifs with hC
    · refine ⟨fun hp => absurd hp (by simp), ?_, fun _ => rfl, ?_⟩
      · intro prev2 hp
        rw [Option.some_inj] at hp
        subst hp
        simpa using hC
      · intro hfalse
        exact absurd hfalse (by simp)
    · refine ⟨fun hp => absurd hp (by simp), ?_, ?_, fun _ => rfl⟩
      · intro prev2 hp
        rw [Option.some_inj] at hp
        subst hp
        simpa using hC
      · intro htrue
        exact absurd htrue (by simp)

/-- C6 witness: the first emission for a fresh key is allowed and its
entry recorded. -/
theorem c6_allowEmit_witness :
    (([] : List (String × EmitEntry)).lookup (pickKey p6) = none) ∧
      allowEmit cfg6 [] p6 0 =
        (true, mapSet [] (pickKey p6) ⟨0, p6.edge.getD 0, p6.priceTaken⟩) :=
  ⟨rfl, (c6_allowEmit_spec cfg6 [] p6 0).1 rfl⟩

/-- A record emitted by one sync step carries a pick identifier that
was not in the settled set the pass started from. -/
lemma syncStep_not_settled (settled : List String) (fetch : ℕ → Option FxLite)
    (p : NPick) (r : ResultRec) (h : syncStep settled fetch p = some r) :
    settled.contains r.pickId = false := by
  simp only [syncStep] at h
  split at h
  next hc => exact absurd h (by simp)
  next hc =>
    have hfalse : settled.contains (makePickId p.idFields) = false := by
      simpa using hc
    repeat' split at h
    all_goals try exact Option.noConfusion h
    rw [Option.some_inj] at h
    rw [← h]
    exact hfalse

/-- Forall transport through filterMap. -/
lemma forall_filterMap {α β : Type} (f : α → Option β) (P : β → Prop)
    (hf : ∀ a b, f a = some b → P b) :
    ∀ l : List α, List.Forall P (List.filterMap f l) := by
  intro l
  induction l with
  | nil => exact trivial
  | cons a l ih =>
    rw [List.filterMap_cons]
    cases hfa : f a with
    | none => exact ih
    | some b =>
      rw [List.forall_cons]
      exact ⟨hf a b hfa, ih⟩

/-- C4 (amended): a settlement pass never writes a record for a pick
identifier that already had one when the pass started: every record the
pass emits has an identifier outside the settled set collected from the
results log, so a duplicate settlement attempt in a later pass is a
silent no-op. -/
theorem c4_no_resettle_of_settled (limit : ℕ) (picksLog : List NPick)
    (resultsLog : List ResultRec) (fetch : ℕ → Option FxLite) :
    List.Forall (fun r => (settledIds resultsLog).contains r.pickId = false)
      (syncPass limit picksLog resultsLog fetch) := by
  unfold syncPass
  exact forall_filterMap _ _
    (fun pk r h => syncStep_not_settled (settledIds resultsLog) fetch pk r h) _

/-- C4 counterexample: one sync pass over a log holding two distinct
pending picks that share fixture, strategy, side and timestamp (two
quarter lines of the same handicap signal) writes two settlement
records with the same pick identifier, because the settled set is not
extended while the loop runs; so more than one SettlementRecord can
exist for one Pick identifier, refuting the claimed at-most-one
invariant. -/
theorem c4_duplicate_records_one_pass :
    (syncPass 400 [npickA, npickB] [] fetch4).map (fun r => r.pickId) =
      ["1__s__home__t", "1__s__home__t"] ∧
    makePickId npickA.idFields = makePickId npickB.idFields ∧
    npickA ≠ npickB := by
  refine ⟨by with_unfolding_all decide, rfl, by with_unfolding_all decide⟩

/-- C7 (amended): the paused flag computed by a risk refresh is true
exactly when the cumulative realized profit of the day at that refresh
is at or below the configured floor, and a paused risk state makes
push a no-op so no new pick is emitted; the flag is recomputed from
current profit at every refresh rather than latched for the day. -/
theorem c7_pause_semantics (cfg : RiskCfg) (today : String) (allPicks : List RPick)
    (fetch : ℕ → Option FxLite) (rs : RiskStateLite) (picks : List ServerPick)
    (c : PushCtx) (strategy betSide : String) (odds : Option Odds3)
    (note : Option String) :
    ((refreshRiskSnapshot cfg today allPicks fetch).paused = true ↔
      (dailyPnlConsec today allPicks fetch).1 ≤ cfg.dailyLossLimit) ∧
    (rs.paused = true → pushPick rs picks c strategy betSide odds note = picks) := by
  constructor
  · rw [show (refreshRiskSnapshot cfg today allPicks fetch).paused =
        decide ((dailyPnlConsec today allPicks fetch).1 ≤ cfg.dailyLossLimit) from rfl]
    exact ⟨of_decide_eq_true, decide_eq_true⟩
  · intro h
    unfold pushPick
    rw [if_pos h]

/-- C7 witness: a paused risk state blocks the push of a qualifying
over75 signal. -/
theorem c7_pause_semantics_witness :
    (RiskStateLite.mk true 1).paused = true ∧
      pushPick ⟨true, 1⟩ [] pc7 "over75" "over" none none = [] :=
  ⟨rfl, (c7_pause_semantics RISK_CONFIG "2024-01-01" [] fetch7 ⟨true, 1⟩ []
    pc7 "over75" "over" none none).2 rfl⟩

/-- C7 counterexample: after three graded losses on 2024-01-01 the
refresh pauses (profit -3 is at the -3 floor), but a later refresh on
the same day that also sees a settled win at price 3 computes profit
-1 and reports paused = false: the flag does not remain true for the
rest of the day when cumulative profit recovers above the floor. -/
theorem c7_pause_not_sticky :
    (refreshRiskSnapshot RISK_CONFIG "2024-01-01" picksL1 fetch7).paused = true ∧
    (refreshRiskSnapshot RISK_CONFIG "2024-01-01" picksL2 fetch7).paused = false ∧
    picksL2 = picksL1 ++ [winPick] ∧
    dateKey winPick.ts = "2024-01-01" := by
  refine ⟨by with_unfolding_all decide, by with_unfolding_all decide, rfl, rfl⟩

end Win100
